import Mathlib

/-!
Verification of the watch/rebuild scheduler and publish protocol of the
adroit-lang website package.

Source files embedded:
- src/packages/website/watch.ts   : the watch-mode scheduler (globals
  `working` and `dirty`, the async `work` loop, and the chokidar handler).
- src/packages/website/common.tsx : `generate` (populate the staging
  directory "out") and `build` (rm staging, generate, then the
  rename/rename/rm publish protocol over "dist" and "tmp").

Modelling conventions:
- JavaScript runs the handler and each resumption of `work` atomically up to
  the next `await`; each such synchronous section is one step of the model.
- `WatchState` holds the two flags of watch.ts plus two ghost counters:
  `running` counts `build()` promises currently pending (the code never
  stores this; we prove it is at most 1) and `builds` counts `build()`
  calls started.
- The filesystem is a map from top-level directory name to an optional
  directory tree (a list of file-name/content pairs).  node:fs semantics:
  `fs.rm(p, { recursive: true })` without `force` rejects with ENOENT when
  `p` is absent; `fs.rename(a, b)` rejects when `a` is absent (ENOENT) or
  when `b` exists as a non-empty directory (ENOTEMPTY).
-/

namespace Website

/-- Scheduler state of watch.ts: the module-level flags `working` and
`dirty`, plus ghost counters `running` (pending `build()` promises) and
`builds` (total `build()` calls started). -/
structure WatchState where
  working : Bool
  dirty : Bool
  running : Nat
  builds : Nat
deriving DecidableEq

/-- The chokidar "all" handler of watch.ts run atomically up to the first
suspension point: `dirty = true; console.log(event, path); await work()`.
`work()` returns at once when `working` is set; otherwise it sets
`working`, enters the while loop (note `dirty` was just set), clears
`dirty` and suspends at `await build()`, starting one build.  The `event`
and `path` arguments are only logged, never inspected. -/
def handleChange (event path : String) (s : WatchState) : WatchState :=
  let s1 : WatchState := { s with dirty := true }
  if s1.working then s1
  else
    { s1 with working := true, dirty := false,
              running := s1.running + 1, builds := s1.builds + 1 }

/-- Resumption of `work()` when the awaited `build()` resolves: re-test the
while condition; when `dirty` holds, clear it and start another build
(one promise settled, one started, so `running` is unchanged); otherwise
leave the loop and reset `working`. -/
def buildDone (s : WatchState) : WatchState :=
  if s.dirty then
    { s with dirty := false, builds := s.builds + 1 }
  else
    { s with working := false, running := s.running - 1 }

/-- Resumption of `work()` when the awaited `build()` rejects: `work` has no
try/catch, so the exception propagates out of `work()` and the statement
`working = false` is never reached; no flag changes, the pending promise is
simply gone. -/
def buildFail (s : WatchState) : WatchState :=
  { s with running := s.running - 1 }

/-- One atomic step of the watch process: a watcher event fires the handler,
or a pending `build()` promise settles (successfully or not). -/
inductive Step : WatchState → WatchState → Prop
  | change (event path : String) (s : WatchState) : Step s (handleChange event path s)
  | done (s : WatchState) (h : 0 < s.running) : Step s (buildDone s)
  | fail (s : WatchState) (h : 0 < s.running) : Step s (buildFail s)

/-- Initial state of watch.ts: `working = false`, `dirty = false`, no build
ever started. -/
def init : WatchState := { working := false, dirty := false, running := 0, builds := 0 }

/-- States the watch process can reach from its initial state. -/
def Reachable (s : WatchState) : Prop := Relation.ReflTransGen Step init s

/-- A burst of watcher events delivered back to back, each handled by
`handleChange`. -/
def signalBurst (evs : List (String × String)) (s : WatchState) : WatchState :=
  evs.foldl (fun t ep => handleChange ep.1 ep.2 t) s

/-- Files of one directory: file name paired with file content. -/
abbrev Tree := List (String × String)

/-- Filesystem: top-level directory name to optional directory tree. -/
abbrev FS := String → Option Tree

/-- Filesystem error codes relevant to the publish protocol. -/
inductive FsErr where
  | enoent
  | enotempty
deriving DecidableEq

/-- `fs.rm(p, { recursive: true })` with no `force` option: removes the
directory, rejecting with ENOENT when it is absent. -/
def rm (fs : FS) (p : String) : FS × Option FsErr :=
  match fs p with
  | some _ => (Function.update fs p none, none)
  | none => (fs, some FsErr.enoent)

/-- `fs.rename(src, dst)` on directories: rejects with ENOENT when the
source is absent, with ENOTEMPTY when the destination exists as a
non-empty directory, and otherwise moves the tree. -/
def rename (fs : FS) (src dst : String) : FS × Option FsErr :=
  match fs src with
  | none => (fs, some FsErr.enoent)
  | some t =>
    match fs dst with
    | some _ => (fs, some FsErr.enotempty)
    | none => (Function.update (Function.update fs src none) dst (some t), none)

/-- `const out = "out"` of common.tsx: the staging directory. -/
def out : String := "out"

/-- `const dist = "dist"` of common.tsx: the live (published) directory. -/
def dist : String := "dist"

/-- `const tmp = "tmp"` of common.tsx: the holding directory used during the
swap. -/
def tmp : String := "tmp"

/-- Replace or add one file in a directory tree. -/
def setEntry (t : Tree) (f c : String) : Tree :=
  (t.filter (fun e => e.1 ≠ f)) ++ [(f, c)]

/-- Look up one file in a directory tree. -/
def lookupFile (t : Tree) (f : String) : Option String :=
  (t.find? (fun e => e.1 = f)).map (fun e => e.2)

/-- `Bun.write` of one file into directory `d`, creating `d` as needed. -/
def writeFile (fs : FS) (d f c : String) : FS :=
  Function.update fs d (some (setEntry ((fs d).getD []) f c))

/-- Failure of `generate`: reading a missing source file rejects. -/
inductive GenErr where
  | missingSource
deriving DecidableEq

/-- `renderHtml(indexHtml())`: the prettier-formatted rendering of the
static template of templates.tsx.  The template reads no input, so this is
one fixed string; only its constancy matters to the properties below. -/
def renderedIndexHtml : String := "<!doctype html>\n<html lang=\"en-us\">...</html>\n"

/-- `generate` of common.tsx: copy each file of `["index.css"]` from the
`src` directory into the staging directory `out`, then write
`out/index.html` with the rendered static template.  Reading a missing
source file rejects before anything further is written. -/
def generate (fs : FS) : FS × Option GenErr :=
  match fs "src" with
  | none => (fs, some GenErr.missingSource)
  | some srcTree =>
    match lookupFile srcTree "index.css" with
    | none => (fs, some GenErr.missingSource)
    | some css =>
      (writeFile (writeFile fs out "index.css" css) out "index.html" renderedIndexHtml, none)

/-- Error raised by one `build()` call: a filesystem operation rejected, or
`generate` rejected. -/
inductive BuildErr where
  | fsError (e : FsErr)
  | genError (e : GenErr)
deriving DecidableEq

/-- Steps 2 and 3 of the publish protocol in `build` of common.tsx:
`await fs.rename(out, dist)` (the publish point, its failure propagates)
then `await fs.rm(tmp, { recursive: true })` (its failure also propagates:
the call is not wrapped in try/catch and has no `force` option). -/
def publishTail (fs : FS) : FS × Option BuildErr :=
  match rename fs out dist with
  | (fs4, some e) => (fs4, some (BuildErr.fsError e))
  | (fs4, none) =>
    match rm fs4 tmp with
    | (fs5, some e) => (fs5, some (BuildErr.fsError e))
    | (fs5, none) => (fs5, none)

/-- The publish protocol of `build`:
`try { await fs.rename(dist, tmp) } catch (_) {}` — every error of step 1
is discarded — followed by steps 2 and 3. -/
def publishSteps (fs : FS) : FS × Option BuildErr :=
  publishTail ((rename fs dist tmp).1)

/-- `build` of common.tsx with the generator it awaits as a parameter:
`await fs.rm(out, { recursive: true })` (no `force`, no try/catch), then
`await generate()`, then the publish protocol. -/
def buildWith (gen : FS → FS × Option GenErr) (fs0 : FS) : FS × Option BuildErr :=
  match rm fs0 out with
  | (fs1, some e) => (fs1, some (BuildErr.fsError e))
  | (fs1, none) =>
    match gen fs1 with
    | (fs2, some g) => (fs2, some (BuildErr.genError g))
    | (fs2, none) => publishSteps fs2

/-- `build` of common.tsx as exported: `buildWith` applied to the concrete
`generate`. -/
def build : FS → FS × Option BuildErr := buildWith generate

/-- Combined state of the watch process together with the filesystem:
scheduler flags, filesystem, and the outcome of the in-flight `build()`
(recorded when the build starts, consumed when its promise settles). -/
structure Sys where
  ws : WatchState
  fs : FS
  pendingErr : Option BuildErr

/-- A watcher event in the combined model: the handler runs, and when it
starts a build the build's filesystem effect is applied and its outcome
recorded for the settle step. -/
def sysChange (event path : String) (s : Sys) : Sys :=
  let ws1 := handleChange event path s.ws
  if s.ws.working then { s with ws := ws1 }
  else
    let r := build s.fs
    { ws := ws1, fs := r.1, pendingErr := r.2 }

/-- The in-flight `build()` promise settles in the combined model: on
rejection `work()` dies (`buildFail`); on resolution `work()` re-tests
`dirty` and either starts another build or resets `working`. -/
def sysSettle (s : Sys) : Sys :=
  match s.pendingErr with
  | some _ => { s with ws := buildFail s.ws, pendingErr := none }
  | none =>
    if s.ws.dirty then
      let r := build s.fs
      { ws := buildDone s.ws, fs := r.1, pendingErr := r.2 }
    else { s with ws := buildDone s.ws, pendingErr := none }

/-- An edit of the watched input: replace the `src` directory tree. -/
def sysEdit (t : Tree) (s : Sys) : Sys :=
  { s with fs := Function.update s.fs "src" (some t) }

/-- The empty filesystem: a fresh checkout before any build, with no
staging, live or holding directory. -/
def emptyFS : FS := fun _ => none

/-- A generator that always rejects and writes nothing. -/
def failGen : FS → FS × Option GenErr := fun f => (f, some GenErr.missingSource)

/-- Example filesystem with a staging directory and a previously published
live directory. -/
def fsC3 : FS := fun p =>
  if p = "out" then some []
  else if p = "dist" then some [("index.html", "old")]
  else none

/-- Example filesystem for a first publish: sources and staging present,
live and holding absent. -/
def fsC6 : FS := fun p =>
  if p = "src" then some [("index.css", "a")]
  else if p = "out" then some []
  else none

/-- Initial filesystem of the end-to-end scenario: sources at version v0,
staging present, no live directory, no holding directory. -/
def fsC8 : FS := fun p =>
  if p = "src" then some [("index.css", "v0")]
  else if p = "out" then some []
  else none

/-- Start of the end-to-end scenario: scheduler idle over `fsC8`. -/
def sysC8 : Sys := { ws := init, fs := fsC8, pendingErr := none }

/-- Scenario after the single change signal: the first cycle starts. -/
def sysC8a : Sys := sysChange "add" "src/index.css" sysC8

/-- Scenario after the first cycle's `build()` promise settles. -/
def sysC8b : Sys := sysSettle sysC8a

/-- The five rapid edits of the scenario's second phase. -/
def editsC8 : List Tree :=
  [[("index.css", "v1")], [("index.css", "v2")], [("index.css", "v3")],
   [("index.css", "v4")], [("index.css", "v5")]]

/-- Scenario after the five edits, each followed by its change signal. -/
def sysC8c : Sys :=
  editsC8.foldl (fun s t => sysChange "change" "src/index.css" (sysEdit t s)) sysC8b

/-- While `working` is set, the handler only sets `dirty`: `work()` returns
without entering its body. -/
theorem handleChange_of_working (event path : String) (s : WatchState)
    (h : s.working = true) : handleChange event path s = { s with dirty := true } := by
  simp [handleChange, h]

/-- While `working` and `dirty` are both set, further events change nothing. -/
theorem signalBurst_fix (evs : List (String × String)) (s : WatchState)
    (hw : s.working = true) (hd : s.dirty = true) : signalBurst evs s = s := by
  induction evs with
  | nil => rfl
  | cons e rest ih =>
    have hfix : handleChange e.1 e.2 s = s := by
      rw [handleChange_of_working e.1 e.2 s hw]
      cases s
      simp only at hd
      simp [hd]
    show signalBurst rest (handleChange e.1 e.2 s) = s
    rw [hfix, ih]

/-- A non-empty burst of events delivered while `working` is set collapses to
setting `dirty` once. -/
theorem signalBurst_of_working (evs : List (String × String)) (s : WatchState)
    (hw : s.working = true) (hne : evs ≠ []) :
    signalBurst evs s = { s with dirty := true } := by
  cases evs with
  | nil => exact absurd rfl hne
  | cons e rest =>
    show signalBurst rest (handleChange e.1 e.2 s) = { s with dirty := true }
    rw [handleChange_of_working e.1 e.2 s hw]
    exact signalBurst_fix rest _ hw rfl

/-- While `working` is set, a burst of events never changes `working`,
`running` or `builds`. -/
theorem signalBurst_preserves (evs : List (String × String)) (s : WatchState)
    (hw : s.working = true) :
    (signalBurst evs s).working = true ∧ (signalBurst evs s).running = s.running ∧
    (signalBurst evs s).builds = s.builds := by
  induction evs generalizing s with
  | nil => exact ⟨hw, rfl, rfl⟩
  | cons e rest ih =>
    have hstep : signalBurst (e :: rest) s = signalBurst rest { s with dirty := true } := by
      show signalBurst rest (handleChange e.1 e.2 s) = _
      rw [handleChange_of_working e.1 e.2 s hw]
    rw [hstep]
    exact ih { s with dirty := true } hw

/-- C1: N change signals delivered while a cycle is in flight (working set,
one pending build, no pending flag yet) leave the build count unchanged and
merely set `dirty`; when the in-flight build resolves, exactly one
additional cycle starts (build count rises by one, `dirty` clears), and
when that one resolves the loop exits with no further cycle started,
regardless of N. -/
theorem coalescing_burst (s : WatchState) (evs : List (String × String))
    (hw : s.working = true) (hr : s.running = 1) (hd : s.dirty = false)
    (hne : evs ≠ []) :
    (signalBurst evs s).builds = s.builds ∧
    (signalBurst evs s).running = 1 ∧
    (signalBurst evs s).dirty = true ∧
    (buildDone (signalBurst evs s)).builds = s.builds + 1 ∧
    (buildDone (signalBurst evs s)).running = 1 ∧
    (buildDone (signalBurst evs s)).dirty = false ∧
    (buildDone (buildDone (signalBurst evs s))).working = false ∧
    (buildDone (buildDone (signalBurst evs s))).running = 0 ∧
    (buildDone (buildDone (signalBurst evs s))).builds = s.builds + 1 := by
  rw [signalBurst_of_working evs s hw hne]
  simp [buildDone, hr]

/-- Witness for C1 at a concrete in-flight state and a burst of three
signals: no build starts during the burst, one build starts at the first
completion, none at the second. -/
theorem coalescing_burst_witness :
    ((⟨true, false, 1, 1⟩ : WatchState).working = true) ∧
    (signalBurst [("change", "a"), ("add", "b"), ("unlink", "c")]
      (⟨true, false, 1, 1⟩ : WatchState)).builds = 1 ∧
    (buildDone (signalBurst [("change", "a"), ("add", "b"), ("unlink", "c")]
      (⟨true, false, 1, 1⟩ : WatchState))).builds = 2 ∧
    (buildDone (buildDone (signalBurst [("change", "a"), ("add", "b"), ("unlink", "c")]
      (⟨true, false, 1, 1⟩ : WatchState)))).working = false ∧
    (buildDone (buildDone (signalBurst [("change", "a"), ("add", "b"), ("unlink", "c")]
      (⟨true, false, 1, 1⟩ : WatchState)))).builds = 2 := by
  have h := coalescing_burst ⟨true, false, 1, 1⟩ [("change", "a"), ("add", "b"), ("unlink", "c")]
    rfl rfl rfl (by decide)
  exact ⟨rfl, h.1, h.2.2.2.1, h.2.2.2.2.2.2.1, h.2.2.2.2.2.2.2.2⟩

/-- One step of the watch process preserves the mutual-exclusion invariant:
at most one pending build, and none while `working` is clear. -/
theorem step_preserves_inv (s t : WatchState) (hst : Step s t)
    (h1 : s.running ≤ 1) (h2 : s.working = false → s.running = 0) :
    t.running ≤ 1 ∧ (t.working = false → t.running = 0) := by
  cases hst with
  | change event path s =>
    cases hw : s.working with
    | true =>
      rw [handleChange_of_working event path s hw]
      exact ⟨h1, fun hc => by simp [hw] at hc⟩
    | false =>
      have hr0 : s.running = 0 := h2 hw
      simp [handleChange, hw, hr0]
  | done s h =>
    have hw : s.working = true := by
      cases hwc : s.working with
      | true => rfl
      | false => rw [h2 hwc] at h; exact absurd h (by decide)
    cases hd : s.dirty with
    | true => simp [buildDone, hd, hw, h1]
    | false =>
      have : s.running = 1 := Nat.le_antisymm h1 h
      simp [buildDone, hd, this]
  | fail s h =>
    refine ⟨Nat.le_trans (Nat.sub_le _ _) h1, fun hc => ?_⟩
    have : s.running = 0 := h2 hc
    rw [this] at h
    exact absurd h (by decide)

/-- C2: in every reachable state of the watch process at most one `build()`
call is pending (`running ≤ 1`), `working` is set whenever a build is
pending, and while `working` is set the handler never enters the work
loop's body (it only sets `dirty`), so no second cycle ever starts beside
an in-flight one. -/
theorem build_mutual_exclusion (s : WatchState) (h : Reachable s) :
    s.running ≤ 1 ∧ (s.working = false → s.running = 0) ∧
    (∀ event path, s.working = true →
      handleChange event path s = { s with dirty := true }) := by
  have main : s.running ≤ 1 ∧ (s.working = false → s.running = 0) := by
    unfold Reachable at h
    induction h with
    | refl => exact ⟨by decide, fun _ => rfl⟩
    | tail hab hbc ih => exact step_preserves_inv _ _ hbc ih.1 ih.2
  exact ⟨main.1, main.2, fun event path hw => handleChange_of_working event path s hw⟩

/-- Witness for C2 at the concrete reachable state after one change signal
from the initial state. -/
theorem build_mutual_exclusion_witness :
    (handleChange "change" "src/index.css" init).running ≤ 1 ∧
    ((handleChange "change" "src/index.css" init).working = false →
      (handleChange "change" "src/index.css" init).running = 0) := by
  have h := build_mutual_exclusion (handleChange "change" "src/index.css" init)
    (Relation.ReflTransGen.single (Step.change "change" "src/index.css" init))
  exact ⟨h.1, h.2.1⟩

/-- C4 fails on the code: evaluated at the failing input (an in-flight cycle
whose `build()` rejects), the scheduler keeps `working = true` with no
pending build, and a subsequent change signal starts no new cycle — it does
not return to Idle and does not re-trigger. -/
theorem watch_failure_not_recovered :
    (buildFail ⟨true, false, 1, 1⟩).working = true ∧
    (buildFail ⟨true, false, 1, 1⟩).running = 0 ∧
    (signalBurst [("change", "src/index.css")] (buildFail ⟨true, false, 1, 1⟩)).working = true ∧
    (signalBurst [("change", "src/index.css")] (buildFail ⟨true, false, 1, 1⟩)).builds = 1 := by
  decide

/-- C5: when the awaited `build()` rejects (one pending build, `working`
set), `working` is never reset: afterwards every burst of change signals
leaves `working` set, no build pending, and the build count unchanged — no
rebuild ever starts again. -/
theorem failure_wedges_scheduler (s : WatchState) (hw : s.working = true)
    (hr : s.running = 1) :
    (buildFail s).working = true ∧ (buildFail s).running = 0 ∧
    (buildFail s).builds = s.builds ∧
    (∀ evs : List (String × String),
      (signalBurst evs (buildFail s)).working = true ∧
      (signalBurst evs (buildFail s)).running = 0 ∧
      (signalBurst evs (buildFail s)).builds = s.builds) := by
  have hbw : (buildFail s).working = true := hw
  have hbr : (buildFail s).running = 0 := by simp [buildFail, hr]
  refine ⟨hbw, hbr, rfl, fun evs => ?_⟩
  have h3 := signalBurst_preserves evs (buildFail s) hbw
  exact ⟨h3.1, by rw [h3.2.1, hbr], h3.2.2⟩

/-- Witness for C5 at a concrete in-flight state and a burst of two
subsequent signals. -/
theorem failure_wedges_scheduler_witness :
    ((⟨true, false, 1, 2⟩ : WatchState).working = true) ∧
    (signalBurst [("change", "x"), ("change", "y")]
      (buildFail ⟨true, false, 1, 2⟩)).working = true ∧
    (signalBurst [("change", "x"), ("change", "y")]
      (buildFail ⟨true, false, 1, 2⟩)).builds = 2 := by
  have h := failure_wedges_scheduler ⟨true, false, 1, 2⟩ rfl rfl
  exact ⟨rfl, (h.2.2.2 [("change", "x"), ("change", "y")]).1,
    (h.2.2.2 [("change", "x"), ("change", "y")]).2.2⟩

/-- C10: the scheduler's state update on a change notification is identical
for every event kind and every path — the handler logs them but its state
effect never inspects them. -/
theorem event_uniformity (e1 p1 e2 p2 : String) (s : WatchState) :
    handleChange e1 p1 s = handleChange e2 p2 s := rfl

/-- C3: when the generator rejects (for any generator whose writes stay
inside the staging directory), `build` rejects and the live directory
`dist` — and the holding directory `tmp` — are byte-identical to what they
were before the cycle: no rename of the publish protocol runs after a
generation failure. -/
theorem generation_failure_isolation (gen : FS → FS × Option GenErr)
    (hloc : ∀ f : FS, ∀ p : String, p ≠ out → (gen f).1 p = f p)
    (fs : FS) (hfail : ((gen ((rm fs out).1)).2).isSome = true) :
    (buildWith gen fs).1 dist = fs dist ∧ (buildWith gen fs).1 tmp = fs tmp ∧
    ((buildWith gen fs).2).isSome = true := by
  cases hout : fs out with
  | none =>
    have hb : buildWith gen fs = (fs, some (BuildErr.fsError FsErr.enoent)) := by
      unfold buildWith
      rw [show rm fs out = (fs, some FsErr.enoent) by simp [rm, hout]]
    rw [hb]
    exact ⟨rfl, rfl, rfl⟩
  | some t =>
    have hrm : rm fs out = (Function.update fs out none, none) := by simp [rm, hout]
    rw [hrm] at hfail
    cases hgen : gen (Function.update fs out none) with
    | mk fs2 og =>
      rw [hgen] at hfail
      cases og with
      | none => simp at hfail
      | some g =>
        have hb : buildWith gen fs = (fs2, some (BuildErr.genError g)) := by
          simp [buildWith, hrm, hgen]
        rw [hb]
        have hd : fs2 dist = fs dist := by
          have h1 := hloc (Function.update fs out none) dist (show dist ≠ out by decide)
          rw [hgen] at h1
          rw [show ((fs2, some g) : FS × Option GenErr).1 = fs2 from rfl] at h1
          rw [h1]
          exact Function.update_noteq (show dist ≠ out by decide) (none : Option Tree) fs
        have ht : fs2 tmp = fs tmp := by
          have h1 := hloc (Function.update fs out none) tmp (show tmp ≠ out by decide)
          rw [hgen] at h1
          rw [show ((fs2, some g) : FS × Option GenErr).1 = fs2 from rfl] at h1
          rw [h1]
          exact Function.update_noteq (show tmp ≠ out by decide) (none : Option Tree) fs
        exact ⟨hd, ht, rfl⟩

/-- Witness for C3: an always-failing generator over a filesystem with a
published live directory leaves that directory untouched. -/
theorem generation_failure_isolation_witness :
    (((failGen ((rm fsC3 out).1)).2).isSome = true) ∧
    ((buildWith failGen fsC3).1 dist = fsC3 dist ∧
     (buildWith failGen fsC3).1 tmp = fsC3 tmp ∧
     ((buildWith failGen fsC3).2).isSome = true) :=
  ⟨rfl, generation_failure_isolation failGen (fun _ _ _ => rfl) fsC3 rfl⟩

/-- C6 fails on the code: evaluated at a first publish (staging present,
live and holding absent), step 2 succeeds — the generated tree is live —
yet `build()` rejects, because `fs.rm(tmp, ...)` has no `force` option and
no try/catch, so the cleanup failure is fatal to the cycle rather than
best-effort. -/
theorem holding_cleanup_failure_fatal :
    (build fsC6).2 = some (BuildErr.fsError FsErr.enoent) ∧
    (build fsC6).1 dist = some [("index.css", "a"), ("index.html", renderedIndexHtml)] ∧
    (build fsC6).1 tmp = none := by
  decide

/-- C7: whenever step 1 of the publish (`rename dist tmp`) fails — with any
error, not only ENOENT — the filesystem is unchanged by it and the publish
proceeds directly to step 2 on that unchanged filesystem; when `dist` does
not exist the error is specifically ENOENT, so the step is skipped without
surfacing an error. -/
theorem publish_step1_error_ignored (fs : FS) (e : FsErr)
    (h : (rename fs dist tmp).2 = some e) :
    (rename fs dist tmp).1 = fs ∧ publishSteps fs = publishTail fs ∧
    (fs dist = none → e = FsErr.enoent) := by
  cases hd : fs dist with
  | none =>
    have hr : rename fs dist tmp = (fs, some FsErr.enoent) := by simp [rename, hd]
    rw [hr] at h
    refine ⟨by rw [hr], by unfold publishSteps; rw [hr], fun _ => ?_⟩
    exact (Option.some.inj h).symm
  | some t =>
    cases htm : fs tmp with
    | some t2 =>
      have hr : rename fs dist tmp = (fs, some FsErr.enotempty) := by
        simp [rename, hd, htm]
      exact ⟨by rw [hr], by unfold publishSteps; rw [hr],
        fun hc => Option.noConfusion hc⟩
    | none =>
      have hr : (rename fs dist tmp).2 = none := by simp [rename, hd, htm]
      rw [hr] at h
      exact Option.noConfusion h

/-- Witness for C7 on the empty filesystem: the step-1 rename fails with
ENOENT, nothing changes, and the publish proceeds to step 2. -/
theorem publish_step1_error_ignored_witness :
    ((rename emptyFS dist tmp).2 = some FsErr.enoent) ∧
    ((rename emptyFS dist tmp).1 = emptyFS ∧
     publishSteps emptyFS = publishTail emptyFS ∧
     (emptyFS dist = none → FsErr.enoent = FsErr.enoent)) :=
  ⟨rfl, publish_step1_error_ignored emptyFS FsErr.enoent rfl⟩

/-- C9: `build` starts with `fs.rm(out, { recursive: true })` without the
`force` option, so on every filesystem where the staging directory is
absent it rejects with ENOENT, leaves the filesystem untouched, and the
generator — whichever it is — is never invoked. -/
theorem missing_staging_build_fails (gen : FS → FS × Option GenErr) (fs : FS)
    (h : fs out = none) :
    buildWith gen fs = (fs, some (BuildErr.fsError FsErr.enoent)) := by
  unfold buildWith
  rw [show rm fs out = (fs, some FsErr.enoent) by simp [rm, h]]

/-- Witness for C9 on a fresh checkout (empty filesystem) with the concrete
generator. -/
theorem missing_staging_build_fails_witness :
    (emptyFS out = none) ∧
    buildWith generate emptyFS = (emptyFS, some (BuildErr.fsError FsErr.enoent)) :=
  ⟨rfl, missing_staging_build_fails generate emptyFS rfl⟩

/-- C8 fails on the code: in the end-to-end scenario (no live directory, one
signal, then five signals with edits v1..v5), the first cycle does publish
the generated tree, but its `build()` rejects at `fs.rm("tmp")` (ENOENT),
`working` stays set with no pending build, and the five later signals start
zero further cycles: the build count stays at 1 and the final live tree
still holds v0 although the sources hold v5 — not the expected two further
cycles and a live tree reflecting v5. -/
theorem end_to_end_scenario_wedged :
    sysC8a.ws.builds = 1 ∧
    sysC8a.pendingErr = some (BuildErr.fsError FsErr.enoent) ∧
    sysC8b.fs dist = some [("index.css", "v0"), ("index.html", renderedIndexHtml)] ∧
    sysC8b.ws.working = true ∧
    sysC8b.ws.running = 0 ∧
    sysC8c.ws.builds = 1 ∧
    sysC8c.ws.working = true ∧
    sysC8c.fs "src" = some [("index.css", "v5")] ∧
    sysC8c.fs dist = some [("index.css", "v0"), ("index.html", renderedIndexHtml)] := by
  decide

end Website
